import Mathlib

/-!
Verification of the load-balancer provisioning sample (`example.go`).

The program is a straight-line orchestration script over the Azure management
SDK.  We shallowly embed it: Go pointer fields become `Option`, SDK request and
response structs become Lean structures with the same field names, the remote
service becomes an explicit `Env` record of per-call outcomes, and `main` /
`createVM` become pure functions returning the trace of issued calls, the
printed lines, the exit outcome, and the final package-level state.  A Go
nil-pointer dereference or out-of-range index is modelled as the `panicked`
outcome.
-/

namespace AzureLB

/-! ## Data model: SDK structs used by the program (pointers become `Option`) -/

/-- Models `autorest.BearerAuthorizer` as an opaque token holder. -/
structure BearerAuthorizer where
  token : String
deriving DecidableEq, Repr

/-- Models an SDK client value: `New...Client(subscriptionID)` plus the
`Authorizer` assignment and the user-agent addition done in `createClients`. -/
structure ClientHandle where
  subscriptionID : String
  authorizer : Option BearerAuthorizer
  userAgent : String
deriving DecidableEq, Repr

inductive IPAllocationMethod
  | Static
  | Dynamic
deriving DecidableEq, Repr

inductive TransportProtocol
  | TCP
  | UDP
deriving DecidableEq, Repr

inductive ProbeProtocol
  | HTTP
  | TCP
deriving DecidableEq, Repr

inductive LoadDistribution
  | Default
  | SourceIP
deriving DecidableEq, Repr

inductive SkuName
  | StandardLRS
  | StandardGRS
deriving DecidableEq, Repr

inductive AccountKind
  | Storage
  | BlobStorage
deriving DecidableEq, Repr

inductive VMSizeTypes
  | StandardDS1
  | StandardA0
deriving DecidableEq, Repr

inductive CachingTypes
  | None
  | ReadOnly
  | ReadWrite
deriving DecidableEq, Repr

inductive DiskCreateOptionTypes
  | FromImage
  | Empty
  | Attach
deriving DecidableEq, Repr

structure SubResource where
  ID : Option String
deriving DecidableEq, Repr

structure PublicIPAddressDNSSettings where
  DomainNameLabel : Option String
deriving DecidableEq, Repr

structure PublicIPAddressPropertiesFormat where
  PublicIPAllocationMethod : IPAllocationMethod
  DNSSettings : Option PublicIPAddressDNSSettings
  IPAddress : Option String
deriving DecidableEq, Repr

/-- `network.PublicIPAddress`; `props` models the embedded
`*PublicIPAddressPropertiesFormat` pointer. -/
structure PublicIPAddress where
  ID : Option String
  Location : Option String
  props : Option PublicIPAddressPropertiesFormat
deriving DecidableEq, Repr

structure FrontendIPConfigurationPropertiesFormat where
  PrivateIPAllocationMethod : IPAllocationMethod
  PublicIPAddress : Option PublicIPAddress
deriving DecidableEq, Repr

structure FrontendIPConfiguration where
  Name : Option String
  ID : Option String
  props : Option FrontendIPConfigurationPropertiesFormat
deriving DecidableEq, Repr

structure BackendAddressPool where
  Name : Option String
  ID : Option String
deriving DecidableEq, Repr

structure ProbePropertiesFormat where
  Protocol : ProbeProtocol
  Port : Option Int
  IntervalInSeconds : Option Int
  NumberOfProbes : Option Int
  RequestPath : Option String
deriving DecidableEq, Repr

structure Probe where
  Name : Option String
  props : Option ProbePropertiesFormat
deriving DecidableEq, Repr

structure LoadBalancingRulePropertiesFormat where
  Protocol : TransportProtocol
  FrontendPort : Option Int
  BackendPort : Option Int
  IdleTimeoutInMinutes : Option Int
  EnableFloatingIP : Option Bool
  LoadDistribution : LoadDistribution
  FrontendIPConfiguration : Option SubResource
  BackendAddressPool : Option SubResource
  Probe : Option SubResource
deriving DecidableEq, Repr

structure LoadBalancingRule where
  Name : Option String
  props : Option LoadBalancingRulePropertiesFormat
deriving DecidableEq, Repr

structure InboundNatRulePropertiesFormat where
  Protocol : TransportProtocol
  FrontendPort : Option Int
  BackendPort : Option Int
  IdleTimeoutInMinutes : Option Int
  EnableFloatingIP : Option Bool
  FrontendIPConfiguration : Option SubResource
deriving DecidableEq, Repr

/-- `network.InboundNatRule`; `props` models the embedded
`*InboundNatRulePropertiesFormat` pointer (field promotion in Go reads
through it, so a promoted read is a dereference). -/
structure InboundNatRule where
  Name : Option String
  ID : Option String
  props : Option InboundNatRulePropertiesFormat
deriving DecidableEq, Repr

structure LoadBalancerPropertiesFormat where
  FrontendIPConfigurations : Option (List FrontendIPConfiguration)
  BackendAddressPools : Option (List BackendAddressPool)
  Probes : Option (List Probe)
  LoadBalancingRules : Option (List LoadBalancingRule)
  InboundNatRules : Option (List InboundNatRule)
deriving DecidableEq, Repr

structure LoadBalancer where
  ID : Option String
  Location : Option String
  props : Option LoadBalancerPropertiesFormat
deriving DecidableEq, Repr

structure AddressSpace where
  AddressPrefixes : Option (List String)
deriving DecidableEq, Repr

structure VirtualNetworkPropertiesFormat where
  AddressSpace : Option AddressSpace
deriving DecidableEq, Repr

structure VirtualNetwork where
  Location : Option String
  props : Option VirtualNetworkPropertiesFormat
deriving DecidableEq, Repr

/-- `network.SubnetPropertiesFormat`; `AddressPrefixCIDR` models the SDK field
named AddressPrefix. -/
structure SubnetPropertiesFormat where
  AddressPrefixCIDR : Option String
deriving DecidableEq, Repr

structure Subnet where
  ID : Option String
  Name : Option String
  props : Option SubnetPropertiesFormat
deriving DecidableEq, Repr

structure InterfaceIPConfigurationPropertiesFormat where
  Subnet : Option Subnet
  LoadBalancerBackendAddressPools : Option (List BackendAddressPool)
  LoadBalancerInboundNatRules : Option (List InboundNatRule)
deriving DecidableEq, Repr

structure InterfaceIPConfiguration where
  Name : Option String
  props : Option InterfaceIPConfigurationPropertiesFormat
deriving DecidableEq, Repr

structure InterfacePropertiesFormat where
  IPConfigurations : Option (List InterfaceIPConfiguration)
deriving DecidableEq, Repr

/-- `network.Interface` (a network interface card). -/
structure Interface where
  ID : Option String
  Location : Option String
  props : Option InterfacePropertiesFormat
deriving DecidableEq, Repr

structure OSProfile where
  ComputerName : Option String
  AdminUsername : Option String
  AdminPassword : Option String
deriving DecidableEq, Repr

structure HardwareProfile where
  VMSize : VMSizeTypes
deriving DecidableEq, Repr

structure ImageReference where
  Publisher : Option String
  Offer : Option String
  Sku : Option String
  Version : Option String
deriving DecidableEq, Repr

structure VirtualHardDisk where
  URI : Option String
deriving DecidableEq, Repr

structure OSDisk where
  Name : Option String
  Caching : CachingTypes
  CreateOption : DiskCreateOptionTypes
  Vhd : Option VirtualHardDisk
deriving DecidableEq, Repr

structure StorageProfile where
  ImageReference : Option ImageReference
  OsDisk : Option OSDisk
deriving DecidableEq, Repr

structure NetworkInterfaceReferenceProperties where
  Primary : Option Bool
deriving DecidableEq, Repr

structure NetworkInterfaceReference where
  ID : Option String
  props : Option NetworkInterfaceReferenceProperties
deriving DecidableEq, Repr

structure NetworkProfile where
  NetworkInterfaces : Option (List NetworkInterfaceReference)
deriving DecidableEq, Repr

structure VirtualMachineProperties where
  OsProfile : Option OSProfile
  HardwareProfile : Option HardwareProfile
  StorageProfile : Option StorageProfile
  NetworkProfile : Option NetworkProfile
  AvailabilitySet : Option SubResource
deriving DecidableEq, Repr

structure VirtualMachine where
  Location : Option String
  props : Option VirtualMachineProperties
deriving DecidableEq, Repr

structure AvailabilitySet where
  ID : Option String
  Location : Option String
deriving DecidableEq, Repr

/-- `resources.Group` (only the `Location` field is used). -/
structure Group where
  Location : Option String
deriving DecidableEq, Repr

structure Sku where
  Name : SkuName
deriving DecidableEq, Repr

structure AccountPropertiesCreateParameters
deriving DecidableEq, Repr

structure AccountCreateParameters where
  Sku : Option Sku
  Kind : AccountKind
  Location : Option String
  props : Option AccountPropertiesCreateParameters
deriving DecidableEq, Repr

/-- An item of `ListResources`; `ResourceType` models the SDK field named Type. -/
structure GenericResource where
  Name : Option String
  ResourceType : Option String
deriving DecidableEq, Repr

structure ResourceListResult where
  Value : Option (List GenericResource)
deriving DecidableEq, Repr

/-! ## Package-level state

The Go file declares two `var` blocks: twelve name strings, nine SDK client
handles, the subscription id, and a (never-assigned) authorizer pointer.  We
collect them in one record so that reading and (never) writing them is
explicit. -/

structure Globals where
  groupName : String
  westus : String
  vNetName : String
  subnetName : String
  ipName : String
  frontEndIPConfigName : String
  backEndAddressPoolName : String
  probeName : String
  loadBalancerName : String
  storageAccountName : String
  vmName1 : String
  vmName2 : String
  groupClient : ClientHandle
  lbClient : ClientHandle
  vNetClient : ClientHandle
  subnetClient : ClientHandle
  pipClient : ClientHandle
  interfaceClient : ClientHandle
  availSetClient : ClientHandle
  accountClient : ClientHandle
  vmClient : ClientHandle
  subscriptionID : String
  authorizer : Option BearerAuthorizer
deriving DecidableEq, Repr

/-- The zero value of a client handle before `createClients` runs. -/
def zeroClient : ClientHandle :=
  { subscriptionID := "", authorizer := none, userAgent := "" }

/-- The package `var` block: the string literals, zero-valued clients, empty
subscription id and nil authorizer. -/
def declaredGlobals : Globals :=
  { groupName := "your-azure-sample-group"
    westus := "westus"
    vNetName := "vNet"
    subnetName := "subnet"
    ipName := "pip"
    frontEndIPConfigName := "fip"
    backEndAddressPoolName := "backEndPool"
    probeName := "probe"
    loadBalancerName := "lb"
    storageAccountName := "golangrocksonazure"
    vmName1 := "Web1"
    vmName2 := "Web2"
    groupClient := zeroClient
    lbClient := zeroClient
    vNetClient := zeroClient
    subnetClient := zeroClient
    pipClient := zeroClient
    interfaceClient := zeroClient
    availSetClient := zeroClient
    accountClient := zeroClient
    vmClient := zeroClient
    subscriptionID := ""
    authorizer := none }

/-- `New...Client(subscriptionID)` followed by the `Authorizer` assignment and
`AddToUserAgent(sampleUA)`, as done for each client in `createClients`. -/
def newClientHandle (subscriptionID : String) (authorizer : Option BearerAuthorizer)
    (sampleUA : String) : ClientHandle :=
  { subscriptionID, authorizer, userAgent := sampleUA }

/-- `createClients`: assigns all nine package-level client handles, each built
from the subscription id, the authorizer, and the sample user agent. -/
def createClients (g : Globals) (subscriptionID : String)
    (authorizer : Option BearerAuthorizer) (commit : String) : Globals :=
  let sampleUA := "sample/0006/" ++ commit
  { g with
    groupClient := newClientHandle subscriptionID authorizer sampleUA
    lbClient := newClientHandle subscriptionID authorizer sampleUA
    vNetClient := newClientHandle subscriptionID authorizer sampleUA
    subnetClient := newClientHandle subscriptionID authorizer sampleUA
    pipClient := newClientHandle subscriptionID authorizer sampleUA
    interfaceClient := newClientHandle subscriptionID authorizer sampleUA
    availSetClient := newClientHandle subscriptionID authorizer sampleUA
    accountClient := newClientHandle subscriptionID authorizer sampleUA
    vmClient := newClientHandle subscriptionID authorizer sampleUA }

/-- The `init` function: obtains an authorizer (bound to a fresh local name by
`:=`, so the package-level `authorizer` variable is left nil), reads the
subscription id from the environment, and runs `createClients`. -/
def initG (auth : BearerAuthorizer) (subIDFromEnv : String) (commit : String) : Globals :=
  createClients { declaredGlobals with subscriptionID := subIDFromEnv }
    subIDFromEnv (some auth) commit

/-! ## Pure parameter builders -/

/-- `buildID`: the Sprintf of the fixed identifier template.  The Go function
takes the subscription id, sub-type and sub-type name as parameters and reads
the package variables `groupName` and `loadBalancerName`. -/
def buildID (g : Globals) (subscriptionID subType subTypeName : String) : String :=
  "/subscriptions/" ++ subscriptionID ++
  "/resourceGroups/" ++ g.groupName ++
  "/providers/Microsoft.Network/loadBalancers/" ++ g.loadBalancerName ++
  "/" ++ subType ++ "/" ++ subTypeName

/-- `buildNATrule`: an inbound NAT rule with the given name and frontend port,
backend port 22, TCP, floating IP disabled, idle timeout 4 minutes, and a
frontend-IP-configuration reference built by `buildID`. -/
def buildNATrule (g : Globals) (natRuleName subscriptionID : String)
    (frontEndPort : Int) : InboundNatRule :=
  { Name := some natRuleName
    ID := none
    props := some
      { Protocol := .TCP
        FrontendPort := some frontEndPort
        BackendPort := some 22
        IdleTimeoutInMinutes := some 4
        EnableFloatingIP := some false
        FrontendIPConfiguration := some
          { ID := some (buildID g subscriptionID "frontendIPConfigurations"
              g.frontEndIPConfigName) } } }

/-- `buildVhdURI`: the Sprintf of the blob URI template with the fixed
container `golangcontainer`. -/
def buildVhdURI (storageAccountName vmName : String) : String :=
  "https://" ++ storageAccountName ++ ".blob.core.windows.net/golangcontainer/" ++
  vmName ++ ".vhd"

/-- `buildVMparams`: the VM definition for a VM name, NIC id and availability
set id; reads the package variables `westus` and `storageAccountName`. -/
def buildVMparams (g : Globals) (vmName : String) (nicID availSetID : Option String) :
    VirtualMachine :=
  { Location := some g.westus
    props := some
      { OsProfile := some
          { ComputerName := some vmName
            AdminUsername := some "notAdmin"
            AdminPassword := some "Pa$$w0rd1975" }
        HardwareProfile := some { VMSize := .StandardDS1 }
        StorageProfile := some
          { ImageReference := some
              { Publisher := some "Canonical"
                Offer := some "UbuntuServer"
                Sku := some "16.04.0-LTS"
                Version := some "latest" }
            OsDisk := some
              { Name := some "osDisk"
                Caching := .None
                CreateOption := .FromImage
                Vhd := some { URI := some (buildVhdURI g.storageAccountName vmName) } } }
        NetworkProfile := some
          { NetworkInterfaces := some
              [ { ID := nicID, props := some { Primary := some true } } ] }
        AvailabilitySet := some { ID := availSetID } } }

/-- The interface value `buildNICparams` constructs when none of its
dereferences panic (`pool0` is the load balancer's backend pool at index 0 and
`rule` its NAT rule at the requested index). -/
def nicInterfaceValue (g : Globals) (subnetID : Option String)
    (pool0 : BackendAddressPool) (rule : InboundNatRule) : Interface :=
  { ID := none
    Location := some g.westus
    props := some
      { IPConfigurations := some
          [ { Name := some "pipConfig"
              props := some
                { Subnet := some { ID := subnetID, Name := none, props := none }
                  LoadBalancerBackendAddressPools := some
                    [ { Name := none, ID := pool0.ID } ]
                  LoadBalancerInboundNatRules := some
                    [ { Name := none, ID := rule.ID, props := none } ] } } ] } }

/-- `buildNICparams`: dereferences the load balancer's properties pointer and
its two list pointers and indexes them (`pools[0]`, `rules[natRule]`).  In Go
each of those operations panics when the pointer is nil or the index is out of
range; we model the panicking executions as `none`. -/
def buildNICparams (g : Globals) (subnetID : Option String) (lb : LoadBalancer)
    (natRule : Nat) : Option Interface :=
  match lb.props with
  | none => none
  | some lbProps =>
    match lbProps.BackendAddressPools, lbProps.InboundNatRules with
    | some pools, some rules =>
      match pools[0]?, rules[natRule]? with
      | some pool0, some rule => some (nicInterfaceValue g subnetID pool0 rule)
      | _, _ => none
    | _, _ => none

/-! ## Inline request parameters built in `main` -/

def resourceGroupParameters (g : Globals) : Group :=
  { Location := some g.westus }

def accountParameters (g : Globals) : AccountCreateParameters :=
  { Sku := some { Name := .StandardLRS }
    Kind := .Storage
    Location := some g.westus
    props := some {} }

def pipParameters (g : Globals) : PublicIPAddress :=
  { ID := none
    Location := some g.westus
    props := some
      { PublicIPAllocationMethod := .Static
        DNSSettings := some { DomainNameLabel := some "domain-name" }
        IPAddress := none } }

/-- The load-balancer definition built in `main`: it embeds the completed
public IP response and predicted `buildID` self-references for its own
children, and the two NAT rules with frontend ports 21 and 23. -/
def lbParameters (g : Globals) (subscriptionID : String) (pip : PublicIPAddress) :
    LoadBalancer :=
  { ID := none
    Location := some g.westus
    props := some
      { FrontendIPConfigurations := some
          [ { Name := some g.frontEndIPConfigName
              ID := none
              props := some
                { PrivateIPAllocationMethod := .Dynamic
                  PublicIPAddress := some pip } } ]
        BackendAddressPools := some [ { Name := some g.backEndAddressPoolName, ID := none } ]
        Probes := some
          [ { Name := some g.probeName
              props := some
                { Protocol := .HTTP
                  Port := some 80
                  IntervalInSeconds := some 15
                  NumberOfProbes := some 4
                  RequestPath := some "healthprobe.aspx" } } ]
        LoadBalancingRules := some
          [ { Name := some "lbRule"
              props := some
                { Protocol := .TCP
                  FrontendPort := some 80
                  BackendPort := some 80
                  IdleTimeoutInMinutes := some 4
                  EnableFloatingIP := some false
                  LoadDistribution := .Default
                  FrontendIPConfiguration := some
                    { ID := some (buildID g subscriptionID "frontendIPConfigurations"
                        g.frontEndIPConfigName) }
                  BackendAddressPool := some
                    { ID := some (buildID g subscriptionID "backendAddressPools"
                        g.backEndAddressPoolName) }
                  Probe := some
                    { ID := some (buildID g subscriptionID "probes" g.probeName) } } } ]
        InboundNatRules := some
          [ buildNATrule g "natRule1" subscriptionID 21,
            buildNATrule g "natRule2" subscriptionID 23 ] } }

def vNetParameters (g : Globals) : VirtualNetwork :=
  { Location := some g.westus
    props := some { AddressSpace := some { AddressPrefixes := some ["10.0.0.0/16"] } } }

def subnetParameters : Subnet :=
  { ID := none, Name := none, props := some { AddressPrefixCIDR := some "10.0.0.0/24" } }

def availSetParameters (g : Globals) : AvailabilitySet :=
  { ID := none, Location := some g.westus }

/-! ## The remote collaborator and the execution model

`CallEvent` records each interaction with the remote service (and the two
local suspension points, the storage-account await and the blocking read of
user input) together with the full argument values passed.  `Env` is the
mocked collaborator: for every call it decides an error (`none` = success)
and, where the program consumes the response, the response value. -/

inductive CallEvent
  | groupCreateOrUpdate (groupName : String) (parameters : Group)
  | storageCreate (groupName accountName : String) (parameters : AccountCreateParameters)
  | pipCreateOrUpdate (groupName ipName : String) (parameters : PublicIPAddress)
  | lbCreateOrUpdate (groupName loadBalancerName : String) (parameters : LoadBalancer)
  | vnetCreateOrUpdate (groupName vNetName : String) (parameters : VirtualNetwork)
  | subnetCreateOrUpdate (groupName vNetName subnetName : String) (parameters : Subnet)
  | subnetGet (groupName vNetName subnetName : String)
  | availSetCreateOrUpdate (groupName availSetName : String) (parameters : AvailabilitySet)
  | storageAwait
  | nicCreateOrUpdate (groupName nicName : String) (parameters : Interface)
  | vmCreateOrUpdate (groupName vmName : String) (parameters : VirtualMachine)
  | listResources (groupName : String)
  | readInput
  | groupDelete (groupName : String)
deriving DecidableEq, Repr

/-- Per-call outcomes supplied by the mocked remote service.  NIC and VM
outcomes are keyed by the resource name so the two VMs can differ. -/
structure Env where
  groupErr : Option String
  storageErr : Option String
  pipErr : Option String
  pipRes : PublicIPAddress
  lbErr : Option String
  lbRes : LoadBalancer
  vnetErr : Option String
  subnetErr : Option String
  subnetGetErr : Option String
  subnetGetRes : Subnet
  availSetErr : Option String
  availSetRes : AvailabilitySet
  nicErr : String → Option String
  nicRes : String → Interface
  vmErr : String → Option String
  listErr : Option String
  listRes : ResourceListResult
  deleteErr : Option String

/-- How a run of `main` ends: normal completion, `os.Exit(1)` from
`onErrorFail` with the printed failure line, or a Go runtime panic. -/
inductive Outcome
  | ok
  | fail (line : String)
  | panicked
deriving DecidableEq, Repr

/-- The process exit status (Go exits 2 on an unrecovered panic). -/
def exitCode : Outcome → Nat
  | .ok => 0
  | .fail _ => 1
  | .panicked => 2

/-- `onErrorFail`'s output line: `Printf("%s: %s", message, err)`. -/
def onErrorFailLine (message err : String) : String :=
  message ++ ": " ++ err

structure MainResult where
  trace : List CallEvent
  printed : List String
  outcome : Outcome
  finalGlobals : Globals

inductive VMOutcome
  | ret (err : Option String)
  | panicked
deriving DecidableEq, Repr

structure VMResult where
  trace : List CallEvent
  printed : List String
  res : VMOutcome
  finalGlobals : Globals

/-- The line printed for one resource by the listing loop. -/
def printResourceLine (r : GenericResource) : Option String :=
  match r.Name, r.ResourceType with
  | some n, some t => some ("----------------\nName: " ++ n ++ "\nType: " ++ t)
  | _, _ => none

/-- The listing loop `for _, r := range *list.Value`; dereferences each
resource's `Name` and `Type` pointers, so a nil pointer panics (`none`). -/
def printResources (rs : List GenericResource) : Option (List String) :=
  rs.mapM printResourceLine

/-- `createVM`: builds the NIC parameters (possibly panicking), issues the NIC
creation and awaits it, then builds the VM parameters from the NIC response
and issues the VM creation; on either failure prints a message and returns the
error to the caller.  On success it prints the ssh hint, dereferencing the VM's
OS profile, the IP address, and the indexed NAT rule's frontend port. -/
def createVM (g : Globals) (env : Env) (vmName : String)
    (subnetID availSetID ipAddress : Option String) (lb : LoadBalancer)
    (natRule : Nat) : VMResult :=
  let nicName := "nic-" ++ vmName
  let printed := ["Starting to create NIC for '" ++ vmName ++ "' machine"]
  match buildNICparams g subnetID lb natRule with
  | none => { trace := [], printed, res := .panicked, finalGlobals := g }
  | some nic =>
    let trace := [CallEvent.nicCreateOrUpdate g.groupName nicName nic]
    match env.nicErr nicName with
    | some e =>
      { trace, printed := printed ++ ["Create NIC failed"], res := .ret (some e),
        finalGlobals := g }
    | none =>
      let printed := printed ++ ["NIC created"]
      let nicResp := env.nicRes nicName
      let printed := printed ++ ["Starting to create machine '" ++ vmName ++ "'"]
      let vm := buildVMparams g vmName nicResp.ID availSetID
      let trace := trace ++ [CallEvent.vmCreateOrUpdate g.groupName vmName vm]
      match env.vmErr vmName with
      | some e =>
        { trace, printed := printed ++ ["Create VM failed"], res := .ret (some e),
          finalGlobals := g }
      | none =>
        let printed := printed ++ ["VM created"]
        match vm.props with
        | none => { trace, printed, res := .panicked, finalGlobals := g }
        | some vmProps =>
          match vmProps.OsProfile with
          | none => { trace, printed, res := .panicked, finalGlobals := g }
          | some osProfile =>
            match osProfile.AdminUsername, osProfile.AdminPassword, ipAddress with
            | some adminUser, some adminPass, some ip =>
              match lb.props with
              | none => { trace, printed, res := .panicked, finalGlobals := g }
              | some lbProps =>
                match lbProps.InboundNatRules with
                | none => { trace, printed, res := .panicked, finalGlobals := g }
                | some rules =>
                  match rules[natRule]? with
                  | none => { trace, printed, res := .panicked, finalGlobals := g }
                  | some rule =>
                    match rule.props with
                    | none => { trace, printed, res := .panicked, finalGlobals := g }
                    | some ruleProps =>
                      match ruleProps.FrontendPort with
                      | none => { trace, printed, res := .panicked, finalGlobals := g }
                      | some frontendPort =>
                        { trace
                          printed := printed ++
                            ["Now you can connect to '" ++ vmName ++ "' via 'ssh " ++
                             adminUser ++ "@" ++ ip ++ " -p " ++ toString frontendPort ++
                             "' with password '" ++ adminPass ++ "'"]
                          res := .ret none
                          finalGlobals := g }
            | _, _, _ => { trace, printed, res := .panicked, finalGlobals := g }

/-- Shorthand for the `onErrorFail` exit: the failure line is printed and the
process terminates with status 1, issuing no further calls. -/
def failResult (g : Globals) (trace : List CallEvent) (printed : List String)
    (message e : String) : MainResult :=
  { trace
    printed := printed ++ [onErrorFailLine message e]
    outcome := .fail (onErrorFailLine message e)
    finalGlobals := g }

def panicResult (g : Globals) (trace : List CallEvent) (printed : List String) :
    MainResult :=
  { trace, printed, outcome := .panicked, finalGlobals := g }

/-- The embedding of `main`: the straight-line workflow over the package
globals `g` and the mocked remote collaborator `env`. -/
def mainRun (g : Globals) (env : Env) : MainResult :=
  let printed := ["Creating resource group"]
  let trace := [CallEvent.groupCreateOrUpdate g.groupName (resourceGroupParameters g)]
  match env.groupErr with
  | some e => failResult g trace printed "CreateOrUpdate failed" e
  | none =>
   let printed := printed ++ ["Starting to create storage account..."]
   let trace := trace ++
     [CallEvent.storageCreate g.groupName g.storageAccountName (accountParameters g)]
   let printed := printed ++ ["Starting to create public IP address..."]
   let trace := trace ++ [CallEvent.pipCreateOrUpdate g.groupName g.ipName (pipParameters g)]
   match env.pipErr with
   | some e => failResult g trace printed "CreateOrUpdate Public IP failed" e
   | none =>
    let printed := printed ++ ["... public IP created"]
    let pip := env.pipRes
    let printed := printed ++ ["Starting to create load balancer..."]
    let trace := trace ++
      [CallEvent.lbCreateOrUpdate g.groupName g.loadBalancerName
        (lbParameters g g.subscriptionID pip)]
    match env.lbErr with
    | some e => failResult g trace printed "CreateOrUpdate Load Balancer failed" e
    | none =>
     let printed := printed ++ ["... load balancer created"]
     let lb := env.lbRes
     let printed := printed ++ ["Starting to create virtual network..."]
     let trace := trace ++ [CallEvent.vnetCreateOrUpdate g.groupName g.vNetName (vNetParameters g)]
     match env.vnetErr with
     | some e => failResult g trace printed "CreateOrUpdate Virtual Network failed" e
     | none =>
      let printed := printed ++ ["... virtual network created", "Starting to create subnet..."]
      let trace := trace ++
        [CallEvent.subnetCreateOrUpdate g.groupName g.vNetName g.subnetName subnetParameters]
      match env.subnetErr with
      | some e => failResult g trace printed "CreateOrUpdate Subnet failed" e
      | none =>
       let printed := printed ++ ["... subnet created"]
       let trace := trace ++ [CallEvent.subnetGet g.groupName g.vNetName g.subnetName]
       match env.subnetGetErr with
       | some e => failResult g trace printed "Get Subnet failed" e
       | none =>
        let subnet := env.subnetGetRes
        let printed := printed ++ ["Creating availability set"]
        let trace := trace ++
          [CallEvent.availSetCreateOrUpdate g.groupName "availSet" (availSetParameters g)]
        match env.availSetErr with
        | some e => failResult g trace printed "CreateOrUpdate failed" e
        | none =>
         let availSet := env.availSetRes
         let trace := trace ++ [CallEvent.storageAwait]
         match env.storageErr with
         | some e => failResult g trace printed "Create Storage Account failed" e
         | none =>
          let printed := printed ++
            ["... storage account created", "Creating virtual machine '" ++ g.vmName1 ++ "'"]
          match pip.props with
          | none => panicResult g trace printed
          | some pipProps =>
           let r1 := createVM g env g.vmName1 subnet.ID availSet.ID pipProps.IPAddress lb 0
           let trace := trace ++ r1.trace
           let printed := printed ++ r1.printed
           match r1.res with
           | .panicked => panicResult g trace printed
           | .ret (some e) => failResult g trace printed "createVM failed" e
           | .ret none =>
            let printed := printed ++ ["Creating virtual machine '" ++ g.vmName2 ++ "'"]
            let r2 := createVM g env g.vmName2 subnet.ID availSet.ID pipProps.IPAddress lb 1
            let trace := trace ++ r2.trace
            let printed := printed ++ r2.printed
            match r2.res with
            | .panicked => panicResult g trace printed
            | .ret (some e) => failResult g trace printed "createVM failed" e
            | .ret none =>
             let printed := printed ++ ["Listing resources in resource group"]
             let trace := trace ++ [CallEvent.listResources g.groupName]
             match env.listErr with
             | some e => failResult g trace printed "ListResources failed" e
             | none =>
              let printed := printed ++ ["Resources in '" ++ g.groupName ++ "' resource group"]
              match env.listRes.Value with
              | none => panicResult g trace printed
              | some rs =>
               match printResources rs with
               | none => panicResult g trace printed
               | some lines =>
                let printed := printed ++ lines
                let printed := printed ++
                  ["Your load balancer and virtual machines have been created.",
                   "Press enter to delete the resources created in this sample..."]
                let trace := trace ++ [CallEvent.readInput]
                let printed := printed ++ ["Starting to delete the resource group..."]
                let trace := trace ++ [CallEvent.groupDelete g.groupName]
                match env.deleteErr with
                | some e => failResult g trace printed "Delete resource group failed" e
                | none =>
                 { trace
                   printed := printed ++ ["... resource group deleted", "Done!"]
                   outcome := .ok
                   finalGlobals := g }

/-! ## Expected traces -/

/-- The calls of steps 1-7 of the workflow (through the storage-account
await), in program order.  The load-balancer definition embeds the completed
public-IP response `env.pipRes`. -/
def earlyEvents (g : Globals) (env : Env) : List CallEvent :=
  [ .groupCreateOrUpdate g.groupName (resourceGroupParameters g),
    .storageCreate g.groupName g.storageAccountName (accountParameters g),
    .pipCreateOrUpdate g.groupName g.ipName (pipParameters g),
    .lbCreateOrUpdate g.groupName g.loadBalancerName
      (lbParameters g g.subscriptionID env.pipRes),
    .vnetCreateOrUpdate g.groupName g.vNetName (vNetParameters g),
    .subnetCreateOrUpdate g.groupName g.vNetName g.subnetName subnetParameters,
    .subnetGet g.groupName g.vNetName g.subnetName,
    .availSetCreateOrUpdate g.groupName "availSet" (availSetParameters g),
    .storageAwait ]

/-- The two calls of one per-VM step: the NIC creation (whose parameters
reference the re-fetched subnet id, the load balancer's backend pool at index
0 and the NAT rule handed to the builder) and the VM creation (whose
parameters reference the created NIC's id and the availability-set id from the
completed responses). -/
def vmStepEvents (g : Globals) (env : Env) (vmName : String)
    (pool0 : BackendAddressPool) (rule : InboundNatRule) : List CallEvent :=
  [ .nicCreateOrUpdate g.groupName ("nic-" ++ vmName)
      (nicInterfaceValue g env.subnetGetRes.ID pool0 rule),
    .vmCreateOrUpdate g.groupName vmName
      (buildVMparams g vmName (env.nicRes ("nic-" ++ vmName)).ID env.availSetRes.ID) ]

/-- The full 12-step call sequence of a fully successful run: `pool0` is the
load balancer's backend pool 0, `rule0` and `rule1` its NAT rules 0 and 1 from
the completed load-balancer response; VM 1 uses `rule0`, VM 2 uses `rule1`. -/
def successTrace (g : Globals) (env : Env) (pool0 : BackendAddressPool)
    (rule0 rule1 : InboundNatRule) : List CallEvent :=
  earlyEvents g env ++
  vmStepEvents g env g.vmName1 pool0 rule0 ++
  vmStepEvents g env g.vmName2 pool0 rule1 ++
  [ .listResources g.groupName, .readInput, .groupDelete g.groupName ]

/-! ## A concrete well-formed sample environment (used by the witnesses) -/

def sampleAuth : BearerAuthorizer := { token := "tok" }

def sampleGlobals : Globals := initG sampleAuth "sub123" "abcdef"

def samplePool0 : BackendAddressPool :=
  { Name := some "backEndPool", ID := some "poolID0" }

def sampleRule0 : InboundNatRule :=
  { Name := some "natRule1"
    ID := some "natRuleID0"
    props := some
      { Protocol := .TCP, FrontendPort := some 21, BackendPort := some 22,
        IdleTimeoutInMinutes := some 4, EnableFloatingIP := some false,
        FrontendIPConfiguration := none } }

def sampleRule1 : InboundNatRule :=
  { Name := some "natRule2"
    ID := some "natRuleID1"
    props := some
      { Protocol := .TCP, FrontendPort := some 23, BackendPort := some 22,
        IdleTimeoutInMinutes := some 4, EnableFloatingIP := some false,
        FrontendIPConfiguration := none } }

/-- A collaborator that succeeds on every call and returns well-formed
responses. -/
def sampleEnv : Env :=
  { groupErr := none
    storageErr := none
    pipErr := none
    pipRes :=
      { ID := some "pipID", Location := some "westus"
        props := some
          { PublicIPAllocationMethod := .Static, DNSSettings := none,
            IPAddress := some "13.37.13.37" } }
    lbErr := none
    lbRes :=
      { ID := some "lbID", Location := some "westus"
        props := some
          { FrontendIPConfigurations := none
            BackendAddressPools := some [samplePool0]
            Probes := none
            LoadBalancingRules := none
            InboundNatRules := some [sampleRule0, sampleRule1] } }
    vnetErr := none
    subnetErr := none
    subnetGetErr := none
    subnetGetRes := { ID := some "subnetID", Name := some "subnet", props := none }
    availSetErr := none
    availSetRes := { ID := some "availSetID", Location := some "westus" }
    nicErr := fun _ => none
    nicRes := fun n => { ID := some ("nicID-" ++ n), Location := some "westus", props := none }
    vmErr := fun _ => none
    listErr := none
    listRes := { Value := some [ { Name := some "lb", ResourceType := some "loadBalancers" } ] }
    deleteErr := none }

/-! ## Claim theorems -/

/-- Claim C1: when every remote call succeeds (and the collaborator's
responses are well-formed enough for the program's unguarded dereferences),
`main` issues its calls in exactly the 12-step order of spec section 2 -
`successTrace` lists them: resource group, storage account start, public IP,
load balancer, virtual network, subnet, subnet re-fetch, availability set,
storage await, NIC+VM for Web1, NIC+VM for Web2, resource listing, blocking
input read, group deletion - with VM 1's NIC built from NAT rule index 0
(`rule0`) and VM 2's from index 1 (`rule1`), and every cross-entity reference
in a later call drawn from an earlier completed call's response: the load
balancer embeds the completed `env.pipRes` (plus its predicted `buildID`
self-references), the NICs reference the re-fetched subnet's id, the load
balancer response's backend pool 0 and indexed NAT rule, and each VM
references its completed NIC response's id and the availability-set response's
id. -/
theorem main_success_trace (g : Globals) (env : Env)
    (pipProps : PublicIPAddressPropertiesFormat) (ip : String)
    (lbProps : LoadBalancerPropertiesFormat)
    (pool0 : BackendAddressPool) (poolsTail : List BackendAddressPool)
    (rules : List InboundNatRule) (rule0 rule1 : InboundNatRule)
    (rule0Props rule1Props : InboundNatRulePropertiesFormat) (port0 port1 : Int)
    (resList : List GenericResource) (resLines : List String)
    (h1 : env.groupErr = none) (h2 : env.pipErr = none) (h3 : env.lbErr = none)
    (h4 : env.vnetErr = none) (h5 : env.subnetErr = none) (h6 : env.subnetGetErr = none)
    (h7 : env.availSetErr = none) (h8 : env.storageErr = none)
    (h9 : ∀ n, env.nicErr n = none) (h10 : ∀ n, env.vmErr n = none)
    (h11 : env.listErr = none) (h12 : env.deleteErr = none)
    (hpip : env.pipRes.props = some pipProps) (hip : pipProps.IPAddress = some ip)
    (hlb : env.lbRes.props = some lbProps)
    (hpools : lbProps.BackendAddressPools = some (pool0 :: poolsTail))
    (hrules : lbProps.InboundNatRules = some rules)
    (hrule0 : rules[0]? = some rule0) (hrule1 : rules[1]? = some rule1)
    (hrp0 : rule0.props = some rule0Props) (hport0 : rule0Props.FrontendPort = some port0)
    (hrp1 : rule1.props = some rule1Props) (hport1 : rule1Props.FrontendPort = some port1)
    (hlist : env.listRes.Value = some resList)
    (hlines : printResources resList = some resLines) :
    (mainRun g env).trace = successTrace g env pool0 rule0 rule1 ∧
    (mainRun g env).outcome = .ok := by
  constructor <;>
    simp [mainRun, createVM, buildNICparams, buildVMparams, successTrace, earlyEvents,
      vmStepEvents, h1, h2, h3, h4, h5, h6, h7, h8, h9, h10, h11, h12, hpip, hip, hlb,
      hpools, hrules, hrule0, hrule1, hrp0, hport0, hrp1, hport1, hlist, hlines]

/-- Witness for C1 at the concrete sample environment. -/
theorem main_success_trace_witness :
    (mainRun sampleGlobals sampleEnv).trace =
      successTrace sampleGlobals sampleEnv samplePool0 sampleRule0 sampleRule1 ∧
    (mainRun sampleGlobals sampleEnv).outcome = .ok :=
  main_success_trace sampleGlobals sampleEnv _ "13.37.13.37" _ samplePool0 []
    [sampleRule0, sampleRule1] sampleRule0 sampleRule1 _ _ 21 23 _ _
    rfl rfl rfl rfl rfl rfl rfl rfl (fun _ => rfl) (fun _ => rfl) rfl rfl
    rfl rfl rfl rfl rfl rfl rfl rfl rfl rfl rfl rfl rfl

/-- The sample collaborator, but failing the public-IP creation call. -/
def samplePipFailEnv : Env := { sampleEnv with pipErr := some "boom" }

/-- Claim C2: if the public-IP creation call fails, `main` never issues the
load-balancer creation call and terminates with exit status 1, printing the
single line `<message>: <error>` for that step (conjunct 2); and in general,
at whichever point a step's failure is observed - resource group, public IP,
load balancer, virtual network, subnet, subnet re-fetch, availability set,
the storage-account await, either `createVM`, the resource listing, or the
group deletion - the process terminates immediately with status 1 having
issued exactly the calls up to that point and none after (the remaining
conjuncts, in program order). -/
theorem main_step_failure_halts :
    (∀ g env e, env.groupErr = some e →
      (mainRun g env).trace = (earlyEvents g env).take 1 ∧
      (mainRun g env).outcome = .fail (onErrorFailLine "CreateOrUpdate failed" e) ∧
      exitCode (mainRun g env).outcome = 1) ∧
    (∀ g env e, env.groupErr = none → env.pipErr = some e →
      (mainRun g env).trace = (earlyEvents g env).take 3 ∧
      (∀ n lbn params, CallEvent.lbCreateOrUpdate n lbn params ∉ (mainRun g env).trace) ∧
      (mainRun g env).outcome = .fail (onErrorFailLine "CreateOrUpdate Public IP failed" e) ∧
      exitCode (mainRun g env).outcome = 1) ∧
    (∀ g env e, env.groupErr = none → env.pipErr = none → env.lbErr = some e →
      (mainRun g env).trace = (earlyEvents g env).take 4 ∧
      (mainRun g env).outcome = .fail (onErrorFailLine "CreateOrUpdate Load Balancer failed" e) ∧
      exitCode (mainRun g env).outcome = 1) ∧
    (∀ g env e, env.groupErr = none → env.pipErr = none → env.lbErr = none →
      env.vnetErr = some e →
      (mainRun g env).trace = (earlyEvents g env).take 5 ∧
      (mainRun g env).outcome = .fail (onErrorFailLine "CreateOrUpdate Virtual Network failed" e) ∧
      exitCode (mainRun g env).outcome = 1) ∧
    (∀ g env e, env.groupErr = none → env.pipErr = none → env.lbErr = none →
      env.vnetErr = none → env.subnetErr = some e →
      (mainRun g env).trace = (earlyEvents g env).take 6 ∧
      (mainRun g env).outcome = .fail (onErrorFailLine "CreateOrUpdate Subnet failed" e) ∧
      exitCode (mainRun g env).outcome = 1) ∧
    (∀ g env e, env.groupErr = none → env.pipErr = none → env.lbErr = none →
      env.vnetErr = none → env.subnetErr = none → env.subnetGetErr = some e →
      (mainRun g env).trace = (earlyEvents g env).take 7 ∧
      (mainRun g env).outcome = .fail (onErrorFailLine "Get Subnet failed" e) ∧
      exitCode (mainRun g env).outcome = 1) ∧
    (∀ g env e, env.groupErr = none → env.pipErr = none → env.lbErr = none →
      env.vnetErr = none → env.subnetErr = none → env.subnetGetErr = none →
      env.availSetErr = some e →
      (mainRun g env).trace = (earlyEvents g env).take 8 ∧
      (mainRun g env).outcome = .fail (onErrorFailLine "CreateOrUpdate failed" e) ∧
      exitCode (mainRun g env).outcome = 1) ∧
    (∀ g env e, env.groupErr = none → env.pipErr = none → env.lbErr = none →
      env.vnetErr = none → env.subnetErr = none → env.subnetGetErr = none →
      env.availSetErr = none → env.storageErr = some e →
      (mainRun g env).trace = earlyEvents g env ∧
      (mainRun g env).outcome = .fail (onErrorFailLine "Create Storage Account failed" e) ∧
      exitCode (mainRun g env).outcome = 1) ∧
    (∀ g env e pipProps lbProps pool0 poolsTail rules rule0,
      env.groupErr = none → env.pipErr = none → env.lbErr = none →
      env.vnetErr = none → env.subnetErr = none → env.subnetGetErr = none →
      env.availSetErr = none → env.storageErr = none →
      env.pipRes.props = some pipProps →
      env.lbRes.props = some lbProps →
      lbProps.BackendAddressPools = some (pool0 :: poolsTail) →
      lbProps.InboundNatRules = some rules →
      rules[0]? = some rule0 →
      env.nicErr ("nic-" ++ g.vmName1) = some e →
      (mainRun g env).trace = earlyEvents g env ++
        [CallEvent.nicCreateOrUpdate g.groupName ("nic-" ++ g.vmName1)
          (nicInterfaceValue g env.subnetGetRes.ID pool0 rule0)] ∧
      (mainRun g env).outcome = .fail (onErrorFailLine "createVM failed" e) ∧
      exitCode (mainRun g env).outcome = 1) ∧
    (∀ g env e pipProps lbProps pool0 poolsTail rules rule0,
      env.groupErr = none → env.pipErr = none → env.lbErr = none →
      env.vnetErr = none → env.subnetErr = none → env.subnetGetErr = none →
      env.availSetErr = none → env.storageErr = none →
      env.pipRes.props = some pipProps →
      env.lbRes.props = some lbProps →
      lbProps.BackendAddressPools = some (pool0 :: poolsTail) →
      lbProps.InboundNatRules = some rules →
      rules[0]? = some rule0 →
      env.nicErr ("nic-" ++ g.vmName1) = none →
      env.vmErr g.vmName1 = some e →
      (mainRun g env).trace = earlyEvents g env ++ vmStepEvents g env g.vmName1 pool0 rule0 ∧
      (mainRun g env).outcome = .fail (onErrorFailLine "createVM failed" e) ∧
      exitCode (mainRun g env).outcome = 1) ∧
    (∀ g env e pipProps ip lbProps pool0 poolsTail rules rule0 rule1 rule0Props port0,
      env.groupErr = none → env.pipErr = none → env.lbErr = none →
      env.vnetErr = none → env.subnetErr = none → env.subnetGetErr = none →
      env.availSetErr = none → env.storageErr = none →
      env.pipRes.props = some pipProps → pipProps.IPAddress = some ip →
      env.lbRes.props = some lbProps →
      lbProps.BackendAddressPools = some (pool0 :: poolsTail) →
      lbProps.InboundNatRules = some rules →
      rules[0]? = some rule0 → rules[1]? = some rule1 →
      rule0.props = some rule0Props → rule0Props.FrontendPort = some port0 →
      env.nicErr ("nic-" ++ g.vmName1) = none → env.vmErr g.vmName1 = none →
      env.nicErr ("nic-" ++ g.vmName2) = some e →
      (mainRun g env).trace = earlyEvents g env ++ vmStepEvents g env g.vmName1 pool0 rule0 ++
        [CallEvent.nicCreateOrUpdate g.groupName ("nic-" ++ g.vmName2)
          (nicInterfaceValue g env.subnetGetRes.ID pool0 rule1)] ∧
      (mainRun g env).outcome = .fail (onErrorFailLine "createVM failed" e) ∧
      exitCode (mainRun g env).outcome = 1) ∧
    (∀ g env e pipProps ip lbProps pool0 poolsTail rules rule0 rule1 rule0Props port0,
      env.groupErr = none → env.pipErr = none → env.lbErr = none →
      env.vnetErr = none → env.subnetErr = none → env.subnetGetErr = none →
      env.availSetErr = none → env.storageErr = none →
      env.pipRes.props = some pipProps → pipProps.IPAddress = some ip →
      env.lbRes.props = some lbProps →
      lbProps.BackendAddressPools = some (pool0 :: poolsTail) →
      lbProps.InboundNatRules = some rules →
      rules[0]? = some rule0 → rules[1]? = some rule1 →
      rule0.props = some rule0Props → rule0Props.FrontendPort = some port0 →
      env.nicErr ("nic-" ++ g.vmName1) = none → env.vmErr g.vmName1 = none →
      env.nicErr ("nic-" ++ g.vmName2) = none → env.vmErr g.vmName2 = some e →
      (mainRun g env).trace = earlyEvents g env ++ vmStepEvents g env g.vmName1 pool0 rule0 ++
        vmStepEvents g env g.vmName2 pool0 rule1 ∧
      (mainRun g env).outcome = .fail (onErrorFailLine "createVM failed" e) ∧
      exitCode (mainRun g env).outcome = 1) ∧
    (∀ g env e pipProps ip lbProps pool0 poolsTail rules rule0 rule1
        rule0Props port0 rule1Props port1,
      env.groupErr = none → env.pipErr = none → env.lbErr = none →
      env.vnetErr = none → env.subnetErr = none → env.subnetGetErr = none →
      env.availSetErr = none → env.storageErr = none →
      env.pipRes.props = some pipProps → pipProps.IPAddress = some ip →
      env.lbRes.props = some lbProps →
      lbProps.BackendAddressPools = some (pool0 :: poolsTail) →
      lbProps.InboundNatRules = some rules →
      rules[0]? = some rule0 → rules[1]? = some rule1 →
      rule0.props = some rule0Props → rule0Props.FrontendPort = some port0 →
      rule1.props = some rule1Props → rule1Props.FrontendPort = some port1 →
      (∀ n, env.nicErr n = none) → (∀ n, env.vmErr n = none) →
      env.listErr = some e →
      (mainRun g env).trace = earlyEvents g env ++ vmStepEvents g env g.vmName1 pool0 rule0 ++
        vmStepEvents g env g.vmName2 pool0 rule1 ++ [CallEvent.listResources g.groupName] ∧
      (mainRun g env).outcome = .fail (onErrorFailLine "ListResources failed" e) ∧
      exitCode (mainRun g env).outcome = 1) ∧
    (∀ g env e pipProps ip lbProps pool0 poolsTail rules rule0 rule1
        rule0Props port0 rule1Props port1 resList resLines,
      env.groupErr = none → env.pipErr = none → env.lbErr = none →
      env.vnetErr = none → env.subnetErr = none → env.subnetGetErr = none →
      env.availSetErr = none → env.storageErr = none →
      env.pipRes.props = some pipProps → pipProps.IPAddress = some ip →
      env.lbRes.props = some lbProps →
      lbProps.BackendAddressPools = some (pool0 :: poolsTail) →
      lbProps.InboundNatRules = some rules →
      rules[0]? = some rule0 → rules[1]? = some rule1 →
      rule0.props = some rule0Props → rule0Props.FrontendPort = some port0 →
      rule1.props = some rule1Props → rule1Props.FrontendPort = some port1 →
      (∀ n, env.nicErr n = none) → (∀ n, env.vmErr n = none) →
      env.listErr = none → env.listRes.Value = some resList →
      printResources resList = some resLines →
      env.deleteErr = some e →
      (mainRun g env).trace = earlyEvents g env ++ vmStepEvents g env g.vmName1 pool0 rule0 ++
        vmStepEvents g env g.vmName2 pool0 rule1 ++
        [CallEvent.listResources g.groupName, CallEvent.readInput,
         CallEvent.groupDelete g.groupName] ∧
      (mainRun g env).outcome = .fail (onErrorFailLine "Delete resource group failed" e) ∧
      exitCode (mainRun g env).outcome = 1) :=
  ⟨by intro g env e h1
      refine ⟨?_, ?_, ?_⟩ <;>
        simp [mainRun, failResult, earlyEvents, exitCode, h1],
   by intro g env e h1 h2
      refine ⟨?_, ?_, ?_, ?_⟩ <;>
        simp [mainRun, failResult, earlyEvents, exitCode, h1, h2],
   by intro g env e h1 h2 h3
      refine ⟨?_, ?_, ?_⟩ <;>
        simp [mainRun, failResult, earlyEvents, exitCode, h1, h2, h3],
   by intro g env e h1 h2 h3 h4
      refine ⟨?_, ?_, ?_⟩ <;>
        simp [mainRun, failResult, earlyEvents, exitCode, h1, h2, h3, h4],
   by intro g env e h1 h2 h3 h4 h5
      refine ⟨?_, ?_, ?_⟩ <;>
        simp [mainRun, failResult, earlyEvents, exitCode, h1, h2, h3, h4, h5],
   by intro g env e h1 h2 h3 h4 h5 h6
      refine ⟨?_, ?_, ?_⟩ <;>
        simp [mainRun, failResult, earlyEvents, exitCode, h1, h2, h3, h4, h5, h6],
   by intro g env e h1 h2 h3 h4 h5 h6 h7
      refine ⟨?_, ?_, ?_⟩ <;>
        simp [mainRun, failResult, earlyEvents, exitCode, h1, h2, h3, h4, h5, h6, h7],
   by intro g env e h1 h2 h3 h4 h5 h6 h7 h8
      refine ⟨?_, ?_, ?_⟩ <;>
        simp [mainRun, failResult, earlyEvents, exitCode, h1, h2, h3, h4, h5, h6, h7, h8],
   by intro g env e pipProps lbProps pool0 poolsTail rules rule0
        h1 h2 h3 h4 h5 h6 h7 h8 hpip hlb hpools hrules hrule0 hnic
      refine ⟨?_, ?_, ?_⟩ <;>
        simp [mainRun, failResult, createVM, buildNICparams, earlyEvents, exitCode,
          h1, h2, h3, h4, h5, h6, h7, h8, hpip, hlb, hpools, hrules, hrule0, hnic],
   by intro g env e pipProps lbProps pool0 poolsTail rules rule0
        h1 h2 h3 h4 h5 h6 h7 h8 hpip hlb hpools hrules hrule0 hnic hvm
      refine ⟨?_, ?_, ?_⟩ <;>
        simp [mainRun, failResult, createVM, buildNICparams, earlyEvents, vmStepEvents, exitCode,
          h1, h2, h3, h4, h5, h6, h7, h8, hpip, hlb, hpools, hrules, hrule0, hnic, hvm],
   by intro g env e pipProps ip lbProps pool0 poolsTail rules rule0 rule1 rule0Props port0
        h1 h2 h3 h4 h5 h6 h7 h8 hpip hip hlb hpools hrules hrule0 hrule1 hrp0 hport0
        hnic1 hvm1 hnic2
      refine ⟨?_, ?_, ?_⟩ <;>
        simp [mainRun, failResult, createVM, buildNICparams, buildVMparams, earlyEvents,
          vmStepEvents, exitCode, h1, h2, h3, h4, h5, h6, h7, h8, hpip, hip, hlb, hpools, hrules,
          hrule0, hrule1, hrp0, hport0, hnic1, hvm1, hnic2],
   by intro g env e pipProps ip lbProps pool0 poolsTail rules rule0 rule1 rule0Props port0
        h1 h2 h3 h4 h5 h6 h7 h8 hpip hip hlb hpools hrules hrule0 hrule1 hrp0 hport0
        hnic1 hvm1 hnic2 hvm2
      refine ⟨?_, ?_, ?_⟩ <;>
        simp [mainRun, failResult, createVM, buildNICparams, buildVMparams, earlyEvents,
          vmStepEvents, exitCode, h1, h2, h3, h4, h5, h6, h7, h8, hpip, hip, hlb, hpools, hrules,
          hrule0, hrule1, hrp0, hport0, hnic1, hvm1, hnic2, hvm2],
   by intro g env e pipProps ip lbProps pool0 poolsTail rules rule0 rule1
        rule0Props port0 rule1Props port1
        h1 h2 h3 h4 h5 h6 h7 h8 hpip hip hlb hpools hrules hrule0 hrule1
        hrp0 hport0 hrp1 hport1 hnic hvm hlist
      refine ⟨?_, ?_, ?_⟩ <;>
        simp [mainRun, failResult, createVM, buildNICparams, buildVMparams, earlyEvents,
          vmStepEvents, exitCode, h1, h2, h3, h4, h5, h6, h7, h8, hpip, hip, hlb, hpools, hrules,
          hrule0, hrule1, hrp0, hport0, hrp1, hport1, hnic, hvm, hlist],
   by intro g env e pipProps ip lbProps pool0 poolsTail rules rule0 rule1
        rule0Props port0 rule1Props port1 resList resLines
        h1 h2 h3 h4 h5 h6 h7 h8 hpip hip hlb hpools hrules hrule0 hrule1
        hrp0 hport0 hrp1 hport1 hnic hvm hlist hvalue hlines hdel
      refine ⟨?_, ?_, ?_⟩ <;>
        simp [mainRun, failResult, createVM, buildNICparams, buildVMparams, earlyEvents,
          vmStepEvents, exitCode, h1, h2, h3, h4, h5, h6, h7, h8, hpip, hip, hlb, hpools, hrules,
          hrule0, hrule1, hrp0, hport0, hrp1, hport1, hnic, hvm, hlist, hvalue,
          hlines, hdel]⟩

/-- Witness for C2: the pip-failure conjunct at the concrete environment that
fails the public-IP call with error text boom. -/
theorem main_step_failure_halts_witness :
    (mainRun sampleGlobals samplePipFailEnv).trace =
      (earlyEvents sampleGlobals samplePipFailEnv).take 3 ∧
    (∀ n lbn params,
      CallEvent.lbCreateOrUpdate n lbn params ∉ (mainRun sampleGlobals samplePipFailEnv).trace) ∧
    (mainRun sampleGlobals samplePipFailEnv).outcome =
      .fail (onErrorFailLine "CreateOrUpdate Public IP failed" "boom") ∧
    exitCode (mainRun sampleGlobals samplePipFailEnv).outcome = 1 :=
  main_step_failure_halts.2.1 sampleGlobals samplePipFailEnv "boom" rfl rfl

/-- The sample collaborator, but failing every NIC creation call. -/
def sampleNicFailEnv : Env := { sampleEnv with nicErr := fun _ => some "nicboom" }

/-- Claim C3: in `createVM`, if the NIC creation fails then the VM creation
call for that VM is never issued, the line Create NIC failed is printed, and
the error is returned to the caller as a value (conjunct 1); if the VM
creation fails after the NIC succeeded, both calls appear in the trace, Create
VM failed is printed, and the error is returned with no further action
(conjunct 2); `createVM` never issues a deletion call in any execution
(conjunct 3); and at the workflow level, when VM 1's NIC creation fails the
subnet and availability-set creations of the earlier steps are still in the
issued trace and no group deletion is ever issued - no rollback (conjunct
4). -/
theorem createVM_substep_failure :
    (∀ g env vmName subnetID availSetID ipAddress lb natRule nic e,
      buildNICparams g subnetID lb natRule = some nic →
      env.nicErr ("nic-" ++ vmName) = some e →
      (createVM g env vmName subnetID availSetID ipAddress lb natRule).trace =
        [CallEvent.nicCreateOrUpdate g.groupName ("nic-" ++ vmName) nic] ∧
      (∀ gn vn params, CallEvent.vmCreateOrUpdate gn vn params ∉
        (createVM g env vmName subnetID availSetID ipAddress lb natRule).trace) ∧
      (createVM g env vmName subnetID availSetID ipAddress lb natRule).printed =
        ["Starting to create NIC for '" ++ vmName ++ "' machine", "Create NIC failed"] ∧
      (createVM g env vmName subnetID availSetID ipAddress lb natRule).res =
        .ret (some e)) ∧
    (∀ g env vmName subnetID availSetID ipAddress lb natRule nic e,
      buildNICparams g subnetID lb natRule = some nic →
      env.nicErr ("nic-" ++ vmName) = none →
      env.vmErr vmName = some e →
      (createVM g env vmName subnetID availSetID ipAddress lb natRule).trace =
        [CallEvent.nicCreateOrUpdate g.groupName ("nic-" ++ vmName) nic,
         CallEvent.vmCreateOrUpdate g.groupName vmName
           (buildVMparams g vmName (env.nicRes ("nic-" ++ vmName)).ID availSetID)] ∧
      (createVM g env vmName subnetID availSetID ipAddress lb natRule).printed =
        ["Starting to create NIC for '" ++ vmName ++ "' machine", "NIC created",
         "Starting to create machine '" ++ vmName ++ "'", "Create VM failed"] ∧
      (createVM g env vmName subnetID availSetID ipAddress lb natRule).res =
        .ret (some e)) ∧
    (∀ g env vmName subnetID availSetID ipAddress lb natRule n,
      CallEvent.groupDelete n ∉
        (createVM g env vmName subnetID availSetID ipAddress lb natRule).trace) ∧
    (∀ g env e pipProps lbProps pool0 poolsTail rules rule0,
      env.groupErr = none → env.pipErr = none → env.lbErr = none →
      env.vnetErr = none → env.subnetErr = none → env.subnetGetErr = none →
      env.availSetErr = none → env.storageErr = none →
      env.pipRes.props = some pipProps →
      env.lbRes.props = some lbProps →
      lbProps.BackendAddressPools = some (pool0 :: poolsTail) →
      lbProps.InboundNatRules = some rules →
      rules[0]? = some rule0 →
      env.nicErr ("nic-" ++ g.vmName1) = some e →
      (∀ gn vn params, CallEvent.vmCreateOrUpdate gn vn params ∉ (mainRun g env).trace) ∧
      CallEvent.subnetCreateOrUpdate g.groupName g.vNetName g.subnetName subnetParameters ∈
        (mainRun g env).trace ∧
      CallEvent.availSetCreateOrUpdate g.groupName "availSet" (availSetParameters g) ∈
        (mainRun g env).trace ∧
      (∀ n, CallEvent.groupDelete n ∉ (mainRun g env).trace)) :=
  ⟨by intro g env vmName subnetID availSetID ipAddress lb natRule nic e hbuild hnic
      refine ⟨?_, ?_, ?_, ?_⟩ <;> simp [createVM, hbuild, hnic],
   by intro g env vmName subnetID availSetID ipAddress lb natRule nic e hbuild hnic hvm
      refine ⟨?_, ?_, ?_⟩ <;> simp [createVM, hbuild, hnic, hvm],
   by intro g env vmName subnetID availSetID ipAddress lb natRule n
      rcases hb : buildNICparams g subnetID lb natRule with _ | nic
      · simp [createVM, hb]
      · rcases hn : env.nicErr ("nic-" ++ vmName) with _ | e1
        · rcases hv : env.vmErr vmName with _ | e2
          · rcases hip : ipAddress with _ | ip
            · simp [createVM, hb, hn, hv, hip, buildVMparams]
            · rcases hlp : lb.props with _ | lbProps
              · simp [createVM, hb, hn, hv, hip, hlp, buildVMparams]
              · rcases hrs : lbProps.InboundNatRules with _ | rules
                · simp [createVM, hb, hn, hv, hip, hlp, hrs, buildVMparams]
                · rcases hr : rules[natRule]? with _ | rule
                  · simp [createVM, hb, hn, hv, hip, hlp, hrs, hr, buildVMparams]
                  · rcases hrp : rule.props with _ | ruleProps
                    · simp [createVM, hb, hn, hv, hip, hlp, hrs, hr, hrp, buildVMparams]
                    · rcases hfp : ruleProps.FrontendPort with _ | port
                      · simp [createVM, hb, hn, hv, hip, hlp, hrs, hr, hrp, hfp, buildVMparams]
                      · simp [createVM, hb, hn, hv, hip, hlp, hrs, hr, hrp, hfp, buildVMparams]
          · simp [createVM, hb, hn, hv]
        · simp [createVM, hb, hn],
   by intro g env e pipProps lbProps pool0 poolsTail rules rule0
        h1 h2 h3 h4 h5 h6 h7 h8 hpip hlb hpools hrules hrule0 hnic
      refine ⟨?_, ?_, ?_, ?_⟩ <;>
        simp [mainRun, failResult, createVM, buildNICparams, earlyEvents,
          h1, h2, h3, h4, h5, h6, h7, h8, hpip, hlb, hpools, hrules, hrule0, hnic]⟩

/-- Witness for C3: the NIC-failure conjunct at the concrete environment
whose NIC creations fail with error text nicboom. -/
theorem createVM_substep_failure_witness :
    (createVM sampleGlobals sampleNicFailEnv "Web1" (some "subnetID") (some "availSetID")
      (some "13.37.13.37") sampleEnv.lbRes 0).trace =
      [CallEvent.nicCreateOrUpdate sampleGlobals.groupName ("nic-" ++ "Web1")
        (nicInterfaceValue sampleGlobals (some "subnetID") samplePool0 sampleRule0)] ∧
    (∀ gn vn params, CallEvent.vmCreateOrUpdate gn vn params ∉
      (createVM sampleGlobals sampleNicFailEnv "Web1" (some "subnetID") (some "availSetID")
        (some "13.37.13.37") sampleEnv.lbRes 0).trace) ∧
    (createVM sampleGlobals sampleNicFailEnv "Web1" (some "subnetID") (some "availSetID")
      (some "13.37.13.37") sampleEnv.lbRes 0).printed =
      ["Starting to create NIC for '" ++ "Web1" ++ "' machine", "Create NIC failed"] ∧
    (createVM sampleGlobals sampleNicFailEnv "Web1" (some "subnetID") (some "availSetID")
      (some "13.37.13.37") sampleEnv.lbRes 0).res = .ret (some "nicboom") :=
  createVM_substep_failure.1 sampleGlobals sampleNicFailEnv "Web1" (some "subnetID")
    (some "availSetID") (some "13.37.13.37") sampleEnv.lbRes 0
    (nicInterfaceValue sampleGlobals (some "subnetID") samplePool0 sampleRule0)
    "nicboom" rfl rfl

/-- Claim C4: `buildID` returns the fixed identifier template with exactly the
five values (subscription id, group name, load-balancer name, sub-type,
sub-type name) in the fixed path positions and nothing else (conjunct 1), and
it is deterministic: its output depends on nothing but those five values, so
two global states agreeing on the group and load-balancer names give the same
string for the same arguments (conjunct 2). -/
theorem buildID_template (g g' : Globals) (subscriptionID subType subTypeName : String) :
    buildID g subscriptionID subType subTypeName =
      "/subscriptions/" ++ subscriptionID ++
      "/resourceGroups/" ++ g.groupName ++
      "/providers/Microsoft.Network/loadBalancers/" ++ g.loadBalancerName ++
      "/" ++ subType ++ "/" ++ subTypeName ∧
    (g.groupName = g'.groupName → g.loadBalancerName = g'.loadBalancerName →
      buildID g subscriptionID subType subTypeName =
        buildID g' subscriptionID subType subTypeName) := by
  refine ⟨rfl, ?_⟩
  intro h1 h2
  simp [buildID, h1, h2]

/-- Witness for C4 at concrete inputs: the template instance, and agreement
between the declared globals and the fully initialized sample globals. -/
theorem buildID_template_witness :
    buildID declaredGlobals "sub123" "probes" "probe" =
      "/subscriptions/" ++ "sub123" ++
      "/resourceGroups/" ++ declaredGlobals.groupName ++
      "/providers/Microsoft.Network/loadBalancers/" ++ declaredGlobals.loadBalancerName ++
      "/" ++ "probes" ++ "/" ++ "probe" ∧
    buildID declaredGlobals "sub123" "probes" "probe" =
      buildID sampleGlobals "sub123" "probes" "probe" :=
  ⟨(buildID_template declaredGlobals sampleGlobals "sub123" "probes" "probe").1,
   (buildID_template declaredGlobals sampleGlobals "sub123" "probes" "probe").2 rfl rfl⟩

/-- Claim C5: for every rule name, subscription id, and frontend port,
`buildNATrule` returns a rule with that name (conjunct 1) whose properties
are: protocol TCP, the given frontend port, backend port 22, floating IP
disabled, idle timeout 4 minutes, and a frontend-IP-configuration reference
equal to the `buildID` output for sub-type frontendIPConfigurations and the
fixed frontend config name (conjunct 2); and the workflow's load-balancer
definition contains exactly two NAT rules, built with frontend ports 21 and 23
(conjunct 3). -/
theorem buildNATrule_fields (g : Globals) (natRuleName subscriptionID : String)
    (frontEndPort : Int) (pip : PublicIPAddress) :
    (buildNATrule g natRuleName subscriptionID frontEndPort).Name = some natRuleName ∧
    (buildNATrule g natRuleName subscriptionID frontEndPort).props = some
      { Protocol := .TCP
        FrontendPort := some frontEndPort
        BackendPort := some 22
        IdleTimeoutInMinutes := some 4
        EnableFloatingIP := some false
        FrontendIPConfiguration := some
          { ID := some (buildID g subscriptionID "frontendIPConfigurations"
              g.frontEndIPConfigName) } } ∧
    ((lbParameters g subscriptionID pip).props.bind
        LoadBalancerPropertiesFormat.InboundNatRules) =
      some [buildNATrule g "natRule1" subscriptionID 21,
            buildNATrule g "natRule2" subscriptionID 23] :=
  ⟨rfl, rfl, rfl⟩

/-- Claim C6: for every subnet identifier, NAT-rule index, and load balancer
whose properties are present with a non-empty backend-pool list and a NAT-rule
list defined at the index, `buildNICparams` returns a network interface with
exactly one IP configuration, referencing the given subnet id, the backend
pool at index 0 (`pool0`, the head of the pool list), and the NAT rule at the
given index (`rule`, with `rules[natRule]? = some rule`). -/
theorem buildNICparams_references (g : Globals) (subnetID : Option String)
    (lb : LoadBalancer) (natRule : Nat) (lbProps : LoadBalancerPropertiesFormat)
    (pool0 : BackendAddressPool) (poolsTail : List BackendAddressPool)
    (rules : List InboundNatRule) (rule : InboundNatRule)
    (hprops : lb.props = some lbProps)
    (hpools : lbProps.BackendAddressPools = some (pool0 :: poolsTail))
    (hrules : lbProps.InboundNatRules = some rules)
    (hrule : rules[natRule]? = some rule) :
    buildNICparams g subnetID lb natRule = some
      { ID := none
        Location := some g.westus
        props := some
          { IPConfigurations := some
              [ { Name := some "pipConfig"
                  props := some
                    { Subnet := some { ID := subnetID, Name := none, props := none }
                      LoadBalancerBackendAddressPools := some
                        [ { Name := none, ID := pool0.ID } ]
                      LoadBalancerInboundNatRules := some
                        [ { Name := none, ID := rule.ID, props := none } ] } } ] } } := by
  simp [buildNICparams, nicInterfaceValue, hprops, hpools, hrules, hrule]

/-- Witness for C6: NAT-rule index 1 against the sample load-balancer
response; the result references backend pool 0 and NAT rule 1. -/
theorem buildNICparams_references_witness :
    buildNICparams sampleGlobals (some "subnetID") sampleEnv.lbRes 1 = some
      { ID := none
        Location := some sampleGlobals.westus
        props := some
          { IPConfigurations := some
              [ { Name := some "pipConfig"
                  props := some
                    { Subnet := some { ID := some "subnetID", Name := none, props := none }
                      LoadBalancerBackendAddressPools := some
                        [ { Name := none, ID := samplePool0.ID } ]
                      LoadBalancerInboundNatRules := some
                        [ { Name := none, ID := sampleRule1.ID, props := none } ] } } ] } } :=
  buildNICparams_references sampleGlobals (some "subnetID") sampleEnv.lbRes 1 _
    samplePool0 [] [sampleRule0, sampleRule1] sampleRule1 rfl rfl rfl rfl

/-- Claim C7: `buildVhdURI` returns the blob URI template with the storage
account and VM name in their positions and the fixed container
golangcontainer (conjunct 1); at storage account golangrocksonazure and VM
name Web1 it returns exactly the expected URI (conjunct 2). -/
theorem buildVhdURI_format (storageAccountName vmName : String) :
    buildVhdURI storageAccountName vmName =
      "https://" ++ storageAccountName ++ ".blob.core.windows.net/golangcontainer/" ++
      vmName ++ ".vhd" ∧
    buildVhdURI "golangrocksonazure" "Web1" =
      "https://golangrocksonazure.blob.core.windows.net/golangcontainer/Web1.vhd" :=
  ⟨rfl, rfl⟩

/-- `createVM` leaves the package-level state unchanged in every execution. -/
theorem createVM_finalGlobals (g : Globals) (env : Env) (vmName : String)
    (subnetID availSetID ipAddress : Option String) (lb : LoadBalancer) (natRule : Nat) :
    (createVM g env vmName subnetID availSetID ipAddress lb natRule).finalGlobals = g := by
  rcases hb : buildNICparams g subnetID lb natRule with _ | nic
  · simp [createVM, hb]
  · rcases hn : env.nicErr ("nic-" ++ vmName) with _ | e1
    · rcases hv : env.vmErr vmName with _ | e2
      · rcases hip : ipAddress with _ | ip
        · simp [createVM, hb, hn, hv, hip, buildVMparams]
        · rcases hlp : lb.props with _ | lbProps
          · simp [createVM, hb, hn, hv, hip, hlp, buildVMparams]
          · rcases hrs : lbProps.InboundNatRules with _ | rules
            · simp [createVM, hb, hn, hv, hip, hlp, hrs, buildVMparams]
            · rcases hr : rules[natRule]? with _ | rule
              · simp [createVM, hb, hn, hv, hip, hlp, hrs, hr, buildVMparams]
              · rcases hrp : rule.props with _ | ruleProps
                · simp [createVM, hb, hn, hv, hip, hlp, hrs, hr, hrp, buildVMparams]
                · rcases hfp : ruleProps.FrontendPort with _ | port
                  · simp [createVM, hb, hn, hv, hip, hlp, hrs, hr, hrp, hfp, buildVMparams]
                  · simp [createVM, hb, hn, hv, hip, hlp, hrs, hr, hrp, hfp, buildVMparams]
      · simp [createVM, hb, hn, hv]
    · simp [createVM, hb, hn]

/-- `main` leaves the package-level state unchanged in every execution. -/
theorem mainRun_finalGlobals (g : Globals) (env : Env) :
    (mainRun g env).finalGlobals = g := by
  unfold mainRun
  repeat' split
  all_goals try simp [failResult, panicResult, createVM_finalGlobals]
  all_goals repeat' split
  all_goals try simp [failResult, panicResult, createVM_finalGlobals]

/-- Claim C8: the package-level state is initialized exactly once before the
workflow begins and never reassigned afterwards: `init` sets the subscription
id from the environment variable (conjunct 1) and each of the nine client
handles to the handle built from that subscription id, the authorizer and the
sample user agent (conjunct 2); the name variables keep their declared
literals and the package-level `authorizer` variable is left nil because
`init` binds a fresh local name (conjunct 3); and neither the workflow nor
`createVM` nor any builder changes any of it - the state after a whole run
from any starting state, in particular from the initialized one, is the
starting state itself (conjuncts 4-6). -/
theorem globals_initialized_once (auth : BearerAuthorizer) (subIDFromEnv commit : String)
    (env : Env) (g : Globals) (vmName : String)
    (subnetID availSetID ipAddress : Option String) (lb : LoadBalancer) (natRule : Nat) :
    (initG auth subIDFromEnv commit).subscriptionID = subIDFromEnv ∧
    ((initG auth subIDFromEnv commit).groupClient =
        newClientHandle subIDFromEnv (some auth) ("sample/0006/" ++ commit) ∧
      (initG auth subIDFromEnv commit).lbClient =
        newClientHandle subIDFromEnv (some auth) ("sample/0006/" ++ commit) ∧
      (initG auth subIDFromEnv commit).vNetClient =
        newClientHandle subIDFromEnv (some auth) ("sample/0006/" ++ commit) ∧
      (initG auth subIDFromEnv commit).subnetClient =
        newClientHandle subIDFromEnv (some auth) ("sample/0006/" ++ commit) ∧
      (initG auth subIDFromEnv commit).pipClient =
        newClientHandle subIDFromEnv (some auth) ("sample/0006/" ++ commit) ∧
      (initG auth subIDFromEnv commit).interfaceClient =
        newClientHandle subIDFromEnv (some auth) ("sample/0006/" ++ commit) ∧
      (initG auth subIDFromEnv commit).availSetClient =
        newClientHandle subIDFromEnv (some auth) ("sample/0006/" ++ commit) ∧
      (initG auth subIDFromEnv commit).accountClient =
        newClientHandle subIDFromEnv (some auth) ("sample/0006/" ++ commit) ∧
      (initG auth subIDFromEnv commit).vmClient =
        newClientHandle subIDFromEnv (some auth) ("sample/0006/" ++ commit)) ∧
    ((initG auth subIDFromEnv commit).groupName = declaredGlobals.groupName ∧
      (initG auth subIDFromEnv commit).storageAccountName = declaredGlobals.storageAccountName ∧
      (initG auth subIDFromEnv commit).authorizer = none) ∧
    (mainRun (initG auth subIDFromEnv commit) env).finalGlobals =
      initG auth subIDFromEnv commit ∧
    (mainRun g env).finalGlobals = g ∧
    (createVM g env vmName subnetID availSetID ipAddress lb natRule).finalGlobals = g :=
  ⟨rfl, ⟨rfl, rfl, rfl, rfl, rfl, rfl, rfl, rfl, rfl⟩, ⟨rfl, rfl, rfl⟩,
   mainRun_finalGlobals _ _, mainRun_finalGlobals _ _,
   createVM_finalGlobals g env vmName subnetID availSetID ipAddress lb natRule⟩

/-- The frontend port of the load balancer's NAT rule at the given index, as
dereferenced by `createVM`'s success message: properties pointer, rule list
pointer, index, rule properties pointer, port pointer. -/
def natRuleFrontendPort (lb : LoadBalancer) (natRule : Nat) : Option Int :=
  ((((lb.props.bind LoadBalancerPropertiesFormat.InboundNatRules).bind
      fun rules => rules[natRule]?).bind InboundNatRule.props).bind
    InboundNatRulePropertiesFormat.FrontendPort)

/-- Claim C9: the unguarded dereferences are partial exactly as the code
shapes them.  Conjunct 1: `buildNICparams` is panic-free iff the load
balancer's properties pointer and both list pointers are non-nil, the
backend-pool list is non-empty and the NAT-rule index is in range.  Conjunct
2: given the two creation calls succeed, `createVM` completes (returns nil
rather than panicking - the only two possibilities) iff additionally the
NIC parameters were buildable, the IP-address pointer is non-nil, and the
indexed NAT rule's properties and frontend-port pointers are non-nil.
Conjunct 3: the VM definition's OS-profile pointers are always non-nil by
construction, so the success message's dereferences of them never panic. -/
theorem unguarded_dereference_conditions :
    (∀ g subnetID lb natRule,
      (buildNICparams g subnetID lb natRule).isSome ↔
        ∃ lbProps pool0 poolsTail rules rule,
          lb.props = some lbProps ∧
          lbProps.BackendAddressPools = some (pool0 :: poolsTail) ∧
          lbProps.InboundNatRules = some rules ∧
          rules[natRule]? = some rule) ∧
    (∀ g env vmName subnetID availSetID ipAddress lb natRule,
      env.nicErr ("nic-" ++ vmName) = none →
      env.vmErr vmName = none →
      (((createVM g env vmName subnetID availSetID ipAddress lb natRule).res = .ret none ↔
          (buildNICparams g subnetID lb natRule).isSome ∧ ipAddress.isSome ∧
          (natRuleFrontendPort lb natRule).isSome) ∧
        ((createVM g env vmName subnetID availSetID ipAddress lb natRule).res = .ret none ∨
         (createVM g env vmName subnetID availSetID ipAddress lb natRule).res = .panicked))) ∧
    (∀ g vmName nicID availSetID,
      ((buildVMparams g vmName nicID availSetID).props.bind
          VirtualMachineProperties.OsProfile) =
        some { ComputerName := some vmName, AdminUsername := some "notAdmin",
               AdminPassword := some "Pa$$w0rd1975" }) :=
  ⟨by intro g subnetID lb natRule
      rcases hlp : lb.props with _ | lbProps
      · simp [buildNICparams, hlp]
      · rcases hbp : lbProps.BackendAddressPools with _ | pools
        · simp [buildNICparams, hlp, hbp]
        · rcases hnr : lbProps.InboundNatRules with _ | rules
          · simp [buildNICparams, hlp, hbp, hnr]
          · cases pools with
            | nil => simp [buildNICparams, hlp, hbp, hnr]
            | cons pool0 poolsTail =>
              rcases hrn : rules[natRule]? with _ | rule
              · simp [buildNICparams, hlp, hbp, hnr, hrn]
              · simp [buildNICparams, hlp, hbp, hnr, hrn],
   by intro g env vmName subnetID availSetID ipAddress lb natRule hn hv
      rcases hb : buildNICparams g subnetID lb natRule with _ | nic
      · simp [createVM, hb]
      · rcases hip : ipAddress with _ | ip
        · simp [createVM, hb, hn, hv, hip, buildVMparams]
        · rcases hlp : lb.props with _ | lbProps
          · simp [buildNICparams, hlp] at hb
          · rcases hrs : lbProps.InboundNatRules with _ | rules
            · simp [buildNICparams, hlp, hrs] at hb
            · rcases hr : rules[natRule]? with _ | rule
              · rcases hbp : lbProps.BackendAddressPools with _ | pools
                · simp [buildNICparams, hlp, hbp] at hb
                · rcases hp0 : pools[0]? with _ | pool0
                  · simp [buildNICparams, hlp, hbp, hrs, hp0] at hb
                  · simp [buildNICparams, hlp, hbp, hrs, hp0, hr] at hb
              · rcases hrp : rule.props with _ | ruleProps
                · simp [createVM, buildVMparams, natRuleFrontendPort,
                    hb, hn, hv, hip, hlp, hrs, hr, hrp]
                · rcases hfp : ruleProps.FrontendPort with _ | port
                  · simp [createVM, buildVMparams, natRuleFrontendPort,
                      hb, hn, hv, hip, hlp, hrs, hr, hrp, hfp]
                  · simp [createVM, buildVMparams, natRuleFrontendPort,
                      hb, hn, hv, hip, hlp, hrs, hr, hrp, hfp],
   by intro g vmName nicID availSetID
      rfl⟩

/-- Witness for C9: the completion condition of `createVM` at the concrete
sample environment. -/
theorem unguarded_dereference_conditions_witness :
    (((createVM sampleGlobals sampleEnv "Web1" (some "subnetID") (some "availSetID")
        (some "13.37.13.37") sampleEnv.lbRes 0).res = .ret none ↔
      (buildNICparams sampleGlobals (some "subnetID") sampleEnv.lbRes 0).isSome ∧
      (some "13.37.13.37" : Option String).isSome ∧
      (natRuleFrontendPort sampleEnv.lbRes 0).isSome) ∧
    ((createVM sampleGlobals sampleEnv "Web1" (some "subnetID") (some "availSetID")
        (some "13.37.13.37") sampleEnv.lbRes 0).res = .ret none ∨
     (createVM sampleGlobals sampleEnv "Web1" (some "subnetID") (some "availSetID")
        (some "13.37.13.37") sampleEnv.lbRes 0).res = .panicked)) :=
  unguarded_dereference_conditions.2.1 sampleGlobals sampleEnv "Web1" (some "subnetID")
    (some "availSetID") (some "13.37.13.37") sampleEnv.lbRes 0 rfl rfl

/-- Claim C10: `createVM` creates the NIC under the name nic- followed by the
VM name - whenever the NIC call is issued at all, the first event in its
trace is the NIC creation under that name (conjunct 1); `buildVMparams` sets
the VM's computer name to the VM name and hardcodes the administrator
credentials notAdmin / Pa$$w0rd1975 for every VM (conjunct 2); and the VM
definition is deterministic in (VM name, NIC id, availability-set id) alone:
any two global states agreeing on the two constants it reads (`westus`,
`storageAccountName`) give the same definition (conjunct 3), and in
particular any two initialized program states do (conjunct 4). -/
theorem vm_definition_deterministic :
    (∀ g env vmName subnetID availSetID ipAddress lb natRule nic,
      buildNICparams g subnetID lb natRule = some nic →
      (createVM g env vmName subnetID availSetID ipAddress lb natRule).trace.head? =
        some (CallEvent.nicCreateOrUpdate g.groupName ("nic-" ++ vmName) nic)) ∧
    (∀ g vmName nicID availSetID,
      ((buildVMparams g vmName nicID availSetID).props.map
          VirtualMachineProperties.OsProfile) =
        some (some { ComputerName := some vmName, AdminUsername := some "notAdmin",
                     AdminPassword := some "Pa$$w0rd1975" })) ∧
    (∀ g g' vmName nicID availSetID, g.westus = g'.westus →
      g.storageAccountName = g'.storageAccountName →
      buildVMparams g vmName nicID availSetID = buildVMparams g' vmName nicID availSetID) ∧
    (∀ auth subIDFromEnv commit auth' subIDFromEnv' commit' vmName nicID availSetID,
      buildVMparams (initG auth subIDFromEnv commit) vmName nicID availSetID =
        buildVMparams (initG auth' subIDFromEnv' commit') vmName nicID availSetID) :=
  ⟨by intro g env vmName subnetID availSetID ipAddress lb natRule nic hb
      rcases hn : env.nicErr ("nic-" ++ vmName) with _ | e1
      · rcases hv : env.vmErr vmName with _ | e2
        · rcases hip : ipAddress with _ | ip
          · simp [createVM, hb, hn, hv, hip, buildVMparams]
          · rcases hlp : lb.props with _ | lbProps
            · simp [createVM, hb, hn, hv, hip, hlp, buildVMparams]
            · rcases hrs : lbProps.InboundNatRules with _ | rules
              · simp [createVM, hb, hn, hv, hip, hlp, hrs, buildVMparams]
              · rcases hr : rules[natRule]? with _ | rule
                · simp [createVM, hb, hn, hv, hip, hlp, hrs, hr, buildVMparams]
                · rcases hrp : rule.props with _ | ruleProps
                  · simp [createVM, hb, hn, hv, hip, hlp, hrs, hr, hrp, buildVMparams]
                  · rcases hfp : ruleProps.FrontendPort with _ | port
                    · simp [createVM, hb, hn, hv, hip, hlp, hrs, hr, hrp, hfp, buildVMparams]
                    · simp [createVM, hb, hn, hv, hip, hlp, hrs, hr, hrp, hfp, buildVMparams]
        · simp [createVM, hb, hn, hv]
      · simp [createVM, hb, hn],
   by intro g vmName nicID availSetID
      rfl,
   by intro g g' vmName nicID availSetID h1 h2
      simp [buildVMparams, h1, h2],
   by intro auth subIDFromEnv commit auth' subIDFromEnv' commit' vmName nicID availSetID
      rfl⟩

/-- Witness for C10: the NIC-name conjunct at the concrete sample
environment. -/
theorem vm_definition_deterministic_witness :
    (createVM sampleGlobals sampleEnv "Web1" (some "subnetID") (some "availSetID")
        (some "13.37.13.37") sampleEnv.lbRes 0).trace.head? =
      some (CallEvent.nicCreateOrUpdate sampleGlobals.groupName ("nic-" ++ "Web1")
        (nicInterfaceValue sampleGlobals (some "subnetID") samplePool0 sampleRule0)) :=
  vm_definition_deterministic.1 sampleGlobals sampleEnv "Web1" (some "subnetID")
    (some "availSetID") (some "13.37.13.37") sampleEnv.lbRes 0
    (nicInterfaceValue sampleGlobals (some "subnetID") samplePool0 sampleRule0) rfl

end AzureLB
